import Mathlib

/-!
# pyglfs file-descriptor wrapper (src/pyglfs-fd.c)

A shallow embedding of the methods of the `pyglfs.FD` type.  Every C function
of the source file becomes a Lean function of the same name.  The results of
the libgfapi calls and of the interpreter routines the source calls are taken
from an environment record, and every function returns, besides its result,
the list of events it performed in program order.
-/

namespace PyGlfs

/-! ## Data model -/

/-- One octet of a bytes object or of a buffer. -/
abbrev Byte := Nat

/-- A `glfs_fd_t *`: `none` is the NULL pointer. -/
abbrev GlfsFd := Option Nat

/-- Constants of the system headers that the source uses by name
(not defined in the source file itself). -/
structure Consts where
  F_GETLK : Int
  F_SETLK : Int
  F_SETLKW : Int
  F_RDLCK : Int
  F_WRLCK : Int
  F_UNLCK : Int
  SEEK_SET : Int
  EINVAL : Int
deriving DecidableEq, Repr

/-- The values of the constants on x86-64 Linux. -/
def linux : Consts :=
  ⟨5, 6, 7, 0, 1, 2, 0, 22⟩

/-- The C `struct flock`. -/
structure flock where
  l_type : Int
  l_whence : Int
  l_start : Int
  l_len : Int
  l_pid : Int
deriving DecidableEq, Repr

/-- The fields of `struct stat` that matter to a caller. -/
structure stat where
  st_mode : Int
  st_uid : Int
  st_gid : Int
  st_size : Int
deriving DecidableEq, Repr

/-- The C struct `py_glfs_fd_t`: the native descriptor, the open flags and the
parent object (`none` is NULL). -/
structure py_glfs_fd_t where
  fd : GlfsFd
  flags : Int
  parent : Option Nat
deriving DecidableEq, Repr

/-- A call into libgfapi, with the arguments the source passes. -/
inductive NativeCall where
  | close (fd : GlfsFd)
  | fstat (fd : GlfsFd)
  | fsync (fd : GlfsFd)
  | fchdir (fd : GlfsFd)
  | fchmod (fd : GlfsFd) (mode : Int)
  | fchown (fd : GlfsFd) (uid gid : Int)
  | ftruncate (fd : GlfsFd) (length : Int)
  | lseek (fd : GlfsFd) (pos how : Int)
  | pread (fd : GlfsFd) (cnt offset flags : Int)
  | pwrite (fd : GlfsFd) (buf : List Byte) (len : Nat) (offset flags : Int)
  | posix_lock (fd : GlfsFd) (cmd : Int) (fl : flock)
deriving DecidableEq, Repr

/-- The descriptor a native call is issued on. -/
def NativeCall.fd : NativeCall → GlfsFd
  | .close fd => fd
  | .fstat fd => fd
  | .fsync fd => fd
  | .fchdir fd => fd
  | .fchmod fd _ => fd
  | .fchown fd _ _ => fd
  | .ftruncate fd _ => fd
  | .lseek fd _ _ => fd
  | .pread fd _ _ _ => fd
  | .pwrite fd _ _ _ _ => fd
  | .posix_lock fd _ _ => fd

/-- What a function of the source does, in program order. -/
inductive Event where
  /-- The macro Py_BEGIN_ALLOW_THREADS: the interpreter lock is released. -/
  | beginAllowThreads
  /-- The macro Py_END_ALLOW_THREADS: the interpreter lock is taken again. -/
  | endAllowThreads
  /-- A call into libgfapi. -/
  | native (c : NativeCall)
  /-- PyBytes_FromStringAndSize(NULL, cnt). -/
  | bytesNew (cnt : Int)
  /-- _PyBytes_Resize(&buffer, n). -/
  | bytesResize (n : Int)
  /-- PyObject_GetBuffer. -/
  | getBuffer
  /-- PyBuffer_Release. -/
  | bufferRelease
  /-- Py_INCREF of the object with the given identity. -/
  | incref (p : Nat)
  /-- Py_DECREF of the object with the given identity. -/
  | decref (p : Nat)
  /-- Py_DECREF of the bytes object that pread allocated. -/
  | bytesDecref
  /-- An fprintf to stderr. -/
  | stderr (msg : String)
  /-- The tp_free slot of the object. -/
  | tpFree
deriving DecidableEq, Repr

/-- The exception a function leaves set when it returns NULL. -/
inductive PyErr where
  /-- The exception already set by the named interpreter routine that failed. -/
  | pending (routine : String)
  /-- PyErr_SetString(PyExc_TypeError, msg). -/
  | typeError (msg : String)
  /-- PyErr_Format / PyErr_SetString with PyExc_ValueError. -/
  | valueError (fmt : String) (args : List Int)
  /-- The exception built by set_glfs_exc for the named native call. -/
  | glfsError (op : String)
  /-- The exception built by set_exc_from_errno for the named call. -/
  | errnoError (errno : Int) (op : String)
deriving DecidableEq, Repr

/-- The Python object a method returns. -/
inductive PyVal where
  /-- Py_None. -/
  | none
  /-- The stat record built from a struct stat. -/
  | pystat (st : stat)
  /-- A bytes object. -/
  | bytes (b : List Byte)
  /-- A Python integer. -/
  | long (n : Int)
  /-- The dictionary built by posix_lock in verbose mode. -/
  | lockDict (command type whence start length pid : Int)
deriving DecidableEq, Repr

/-- A method either returns an object or returns NULL with an exception set. -/
inductive PyResult where
  | ok (v : PyVal)
  | error (e : PyErr)
deriving DecidableEq, Repr

/-- The result of a method call and the events it performed. -/
structure Outcome where
  result : PyResult
  trace : List Event
deriving DecidableEq, Repr

/-- The `Py_buffer` view that PyObject_GetBuffer fills in. -/
structure Py_buffer where
  buf : List Byte
  contiguous : Bool
deriving DecidableEq, Repr

/-- The first argument of pwrite, as far as the source inspects it: the answer
of PyObject_CheckBuffer and the outcome of PyObject_GetBuffer with PyBUF_SIMPLE
(`none` when it fails). -/
structure PyObject where
  checkBuffer : Bool
  getBuffer : Option Py_buffer
deriving DecidableEq, Repr

/-- The arguments of posix_lock after a successful parse with the format
"ih|hLLb": the two required ones and the four optional ones. -/
structure LockArgs where
  cmd : Int
  type : Int
  whence : Option Int
  start : Option Int
  len : Option Int
  verbose : Option Int
deriving DecidableEq, Repr

/-- The environment: what the libgfapi calls return and whether the
interpreter allocations succeed. -/
structure Env where
  glfs_close : GlfsFd → Int
  glfs_fstat : GlfsFd → Int × stat
  glfs_fsync : GlfsFd → Int
  glfs_fchdir : GlfsFd → Int
  glfs_fchmod : GlfsFd → Int → Int
  glfs_fchown : GlfsFd → Int → Int → Int
  glfs_ftruncate : GlfsFd → Int → Int
  glfs_lseek : GlfsFd → Int → Int → Int
  /-- The return value and the octets stored from the start of the buffer. -/
  glfs_pread : GlfsFd → Int → Int → Int → Int × List Byte
  glfs_pwrite : GlfsFd → List Byte → Nat → Int → Int → Int
  /-- The return value and the struct flock as the call leaves it. -/
  glfs_posix_lock : GlfsFd → Int → flock → Int × flock
  /-- Whether the tp_alloc slot of the type returns memory. -/
  tp_alloc : Bool
  /-- Whether PyBytes_FromStringAndSize(NULL, cnt) returns an object. -/
  bytesAlloc : Int → Bool
  /-- The content of freshly allocated, uninitialised bytes storage. -/
  uninit : Nat → Byte

/-! ## Helpers of the embedding -/

/-- Conversion of a 64-bit value to a C `int`. -/
def toCInt (x : Int) : Int :=
  (x + 2 ^ 31) % 2 ^ 32 - 2 ^ 31

/-- Conversion of a C `int` to `uid_t` / `gid_t` (unsigned 32-bit). -/
def toUInt32 (x : Int) : Int :=
  x % 2 ^ 32

/-- The storage of PyBytes_FromStringAndSize(NULL, cnt): cnt uninitialised
octets. -/
def freshBytes (E : Env) (cnt : Int) : List Byte :=
  (List.range cnt.toNat).map E.uninit

/-- The buffer after the native call stored `data` from its start; storage
never reaches past the end of the buffer. -/
def storeInto (buffer data : List Byte) : List Byte :=
  (data ++ buffer.drop data.length).take buffer.length

/-- Effect of _PyBytes_Resize(&buffer, n) on the content: the object has n
octets afterwards, the first ones kept and any new ones uninitialised.  The
source discards the status of the routine, and so does the embedding. -/
def bytesResize (E : Env) (buffer : List Byte) (n : Int) : List Byte :=
  buffer.take n.toNat ++ (List.range (n.toNat - buffer.length)).map E.uninit

/-- Modelled from the spec: set_glfs_exc is defined outside the source file;
the spec describes it as turning the failure of the named native operation
into a structured error carrying the operation name. -/
def set_glfs_exc (op : String) : PyErr :=
  PyErr.glfsError op

/-- Modelled from the spec: set_exc_from_errno is defined outside the source
file; it turns the current errno and the operation name into a structured
error. -/
def set_exc_from_errno (errno : Int) (op : String) : PyErr :=
  PyErr.errnoError errno op

/-- Modelled from the spec: stat_to_pystat is defined outside the source file;
the spec describes it as the converter from the native stat structure to the
structured metadata record. -/
def stat_to_pystat (st : stat) : PyResult :=
  PyResult.ok (PyVal.pystat st)

/-- The native calls among the events of a trace, in order. -/
def nativeCalls : List Event → List NativeCall
  | [] => []
  | Event.native c :: t => c :: nativeCalls t
  | _ :: t => nativeCalls t

/-- Number of glfs_close calls in a trace. -/
def closeCount : List Event → Nat
  | [] => 0
  | Event.native (NativeCall.close _) :: t => closeCount t + 1
  | _ :: t => closeCount t

/-- Number of Py_DECREF events on object `p` in a trace. -/
def decrefCount (p : Nat) : List Event → Nat
  | [] => 0
  | Event.decref q :: t => (if q = p then 1 else 0) + decrefCount p t
  | _ :: t => decrefCount p t

/-- Number of Py_INCREF events on object `p` in a trace. -/
def increfCount (p : Nat) : List Event → Nat
  | [] => 0
  | Event.incref q :: t => (if q = p then 1 else 0) + increfCount p t
  | _ :: t => increfCount p t

/-- The interpreter-lock discipline of a trace, read from left to right with
`held` telling whether the lock is held: a native call needs the lock
released, every interpreter routine needs it held, and it is held at the end. -/
def gilDiscipline : Bool → List Event → Bool
  | held, [] => held
  | held, Event.beginAllowThreads :: t => held && gilDiscipline false t
  | held, Event.endAllowThreads :: t => !held && gilDiscipline true t
  | held, Event.native _ :: t => !held && gilDiscipline held t
  | held, Event.stderr _ :: t => gilDiscipline held t
  | held, _ :: t => held && gilDiscipline held t

/-- A method is entered with the interpreter lock held. -/
def gilSafe (tr : List Event) : Bool :=
  gilDiscipline true tr

/-! ## The functions of the source file -/

/-- The tp_new slot: the object comes from tp_alloc, which zeroes it. -/
def py_glfs_fd_new (E : Env) : Option py_glfs_fd_t :=
  if E.tp_alloc then some ⟨none, 0, none⟩ else none

/-- The tp_init slot. -/
def py_glfs_fd_init (_obj : py_glfs_fd_t) : Int :=
  0

/-- The call PyObject_CallFunction(&PyGlfsFd, NULL): tp_new, then tp_init. -/
def PyGlfsFd_call (E : Env) : Option py_glfs_fd_t :=
  match py_glfs_fd_new E with
  | none => none
  | some obj => if py_glfs_fd_init obj < 0 then none else some obj

/-- What py_glfs_fd_dealloc leaves behind: the fields of the object right
before its memory is freed, the reference counts and the events. -/
structure DeallocResult where
  self : py_glfs_fd_t
  refcnt : Nat → Int
  trace : List Event

/-- The first statement of py_glfs_fd_dealloc: close the descriptor if set. -/
def deallocClose (E : Env) (self : py_glfs_fd_t) : py_glfs_fd_t × List Event :=
  match self.fd with
  | some fd =>
    ({ self with fd := none },
      Event.native (NativeCall.close (some fd)) ::
        (if E.glfs_close (some fd) = -1 then [Event.stderr "glfs_close() failed: %s"] else []))
  | none => (self, [])

/-- The macro Py_CLEAR(self->parent). -/
def deallocClear (refcnt : Nat → Int) (self : py_glfs_fd_t) :
    py_glfs_fd_t × (Nat → Int) × List Event :=
  match self.parent with
  | some p =>
    ({ self with parent := none }, Function.update refcnt p (refcnt p - 1), [Event.decref p])
  | none => (self, refcnt, [])

/-- The destructor py_glfs_fd_dealloc. -/
def py_glfs_fd_dealloc (E : Env) (refcnt : Nat → Int) (self : py_glfs_fd_t) : DeallocResult :=
  let closed := deallocClose E self
  let cleared := deallocClear refcnt closed.1
  ⟨cleared.1, cleared.2.1, closed.2 ++ cleared.2.2 ++ [Event.tpFree]⟩

/-- What init_glfs_fd leaves behind: the new object or the pending exception,
the reference counts and the events. -/
structure InitResult where
  result : Except PyErr py_glfs_fd_t
  refcnt : Nat → Int
  trace : List Event

/-- The constructor init_glfs_fd(fd_in, hdl, flags); `hdl` is the identity of
the parent object. -/
def init_glfs_fd (E : Env) (refcnt : Nat → Int) (fd_in : GlfsFd) (hdl : Nat) (flags : Int) :
    InitResult :=
  match PyGlfsFd_call E with
  | none => ⟨Except.error (PyErr.pending "PyObject_CallFunction"), refcnt,
      [Event.native (NativeCall.close fd_in)]⟩
  | some pyfd =>
    ⟨Except.ok { pyfd with fd := fd_in, flags := flags, parent := some hdl },
      Function.update refcnt hdl (refcnt hdl + 1), [Event.incref hdl]⟩

/-- The method fstat. -/
def py_glfs_fd_fstat (E : Env) (self : py_glfs_fd_t) : Outcome :=
  let r := E.glfs_fstat self.fd
  ⟨if r.1 ≠ 0 then PyResult.error (set_glfs_exc "glfs_fstat()") else stat_to_pystat r.2,
    [Event.beginAllowThreads, Event.native (NativeCall.fstat self.fd), Event.endAllowThreads]⟩

/-- The method fsync. -/
def py_glfs_fd_fsync (E : Env) (self : py_glfs_fd_t) : Outcome :=
  let err := E.glfs_fsync self.fd
  ⟨if err ≠ 0 then PyResult.error (set_glfs_exc "glfs_fsync()") else PyResult.ok PyVal.none,
    [Event.beginAllowThreads, Event.native (NativeCall.fsync self.fd), Event.endAllowThreads]⟩

/-- The method fchdir. -/
def py_glfs_fd_fchdir (E : Env) (self : py_glfs_fd_t) : Outcome :=
  let err := E.glfs_fchdir self.fd
  ⟨if err ≠ 0 then PyResult.error (set_glfs_exc "glfs_fchdir()") else PyResult.ok PyVal.none,
    [Event.beginAllowThreads, Event.native (NativeCall.fchdir self.fd), Event.endAllowThreads]⟩

/-- The method fchmod; `args` is the outcome of PyArg_ParseTuple with "i". -/
def py_glfs_fd_fchmod (E : Env) (self : py_glfs_fd_t) (args : Option Int) : Outcome :=
  match args with
  | none => ⟨PyResult.error (PyErr.pending "PyArg_ParseTuple"), []⟩
  | some mode =>
    let err := E.glfs_fchmod self.fd mode
    ⟨if err ≠ 0 then PyResult.error (set_glfs_exc "glfs_fchmod()") else PyResult.ok PyVal.none,
      [Event.beginAllowThreads, Event.native (NativeCall.fchmod self.fd mode),
        Event.endAllowThreads]⟩

/-- The method fchown; `args` is the outcome of PyArg_ParseTuple with "ii". -/
def py_glfs_fd_fchown (E : Env) (self : py_glfs_fd_t) (args : Option (Int × Int)) : Outcome :=
  match args with
  | none => ⟨PyResult.error (PyErr.pending "PyArg_ParseTuple"), []⟩
  | some (uid, gid) =>
    let err := E.glfs_fchown self.fd (toUInt32 uid) (toUInt32 gid)
    ⟨if err ≠ 0 then PyResult.error (set_glfs_exc "glfs_fchown()") else PyResult.ok PyVal.none,
      [Event.beginAllowThreads,
        Event.native (NativeCall.fchown self.fd (toUInt32 uid) (toUInt32 gid)),
        Event.endAllowThreads]⟩

/-- The method ftruncate; `args` is the outcome of PyArg_ParseTuple with "L". -/
def py_glfs_fd_ftruncate (E : Env) (self : py_glfs_fd_t) (args : Option Int) : Outcome :=
  match args with
  | none => ⟨PyResult.error (PyErr.pending "PyArg_ParseTuple"), []⟩
  | some length =>
    let err := E.glfs_ftruncate self.fd length
    ⟨if err ≠ 0 then PyResult.error (set_glfs_exc "glfs_ftruncate()")
      else PyResult.ok PyVal.none,
      [Event.beginAllowThreads, Event.native (NativeCall.ftruncate self.fd length),
        Event.endAllowThreads]⟩

/-- The method lseek; `args` is the outcome of PyArg_ParseTuple with "L|i": the
position and the optional `how`, which stays 0 when absent.  The off_t that
glfs_lseek returns is stored in the `int err`. -/
def py_glfs_fd_lseek (E : Env) (self : py_glfs_fd_t) (args : Option (Int × Option Int)) : Outcome :=
  match args with
  | none => ⟨PyResult.error (PyErr.pending "PyArg_ParseTuple"), []⟩
  | some (pos, how?) =>
    let how := how?.getD 0
    let err := toCInt (E.glfs_lseek self.fd pos how)
    ⟨if err ≠ 0 then PyResult.error (set_glfs_exc "glfs_lseek()") else PyResult.ok PyVal.none,
      [Event.beginAllowThreads, Event.native (NativeCall.lseek self.fd pos how),
        Event.endAllowThreads]⟩

/-- The method pread; `args` is the outcome of PyArg_ParseTuple with "Ln": the
offset and the count. -/
def py_glfs_fd_pread (C : Consts) (E : Env) (self : py_glfs_fd_t) (args : Option (Int × Int)) :
    Outcome :=
  match args with
  | none => ⟨PyResult.error (PyErr.pending "PyArg_ParseTuple"), []⟩
  | some (offset, cnt) =>
    if cnt < 0 then
      ⟨PyResult.error (set_exc_from_errno C.EINVAL "glfs_pread()"), []⟩
    else if E.bytesAlloc cnt = false then
      ⟨PyResult.error (PyErr.pending "PyBytes_FromStringAndSize"), [Event.bytesNew cnt]⟩
    else
      let r := E.glfs_pread self.fd cnt offset 0
      let n := r.1
      let buffer := storeInto (freshBytes E cnt) r.2
      let events := [Event.bytesNew cnt, Event.beginAllowThreads,
        Event.native (NativeCall.pread self.fd cnt offset 0), Event.endAllowThreads]
      if n < 0 then
        ⟨PyResult.error (set_glfs_exc "glfs_pread()"), events ++ [Event.bytesDecref]⟩
      else if n ≠ cnt then
        ⟨PyResult.ok (PyVal.bytes (bytesResize E buffer n)), events ++ [Event.bytesResize n]⟩
      else
        ⟨PyResult.ok (PyVal.bytes buffer), events⟩

/-- The method pwrite; `args` is the outcome of PyArg_ParseTuple with "OL": the
object and the offset. -/
def py_glfs_fd_pwrite (E : Env) (self : py_glfs_fd_t) (args : Option (PyObject × Int)) : Outcome :=
  match args with
  | none => ⟨PyResult.error (PyErr.pending "PyArg_ParseTuple"), []⟩
  | some (buf, offset) =>
    if buf.checkBuffer = false then
      ⟨PyResult.error (PyErr.typeError "not a buffer."), []⟩
    else
      match buf.getBuffer with
      | none => ⟨PyResult.error (PyErr.pending "PyObject_GetBuffer"), [Event.getBuffer]⟩
      | some buffer =>
        if buffer.contiguous = false then
          ⟨PyResult.error (PyErr.typeError "buffer must be contiguous."),
            [Event.getBuffer, Event.bufferRelease]⟩
        else
          let ret := E.glfs_pwrite self.fd buffer.buf buffer.buf.length offset 0
          ⟨if ret = -1 then PyResult.error (set_glfs_exc "glfs_pwrite()")
            else PyResult.ok (PyVal.long ret),
            [Event.getBuffer, Event.beginAllowThreads,
              Event.native (NativeCall.pwrite self.fd buffer.buf buffer.buf.length offset 0),
              Event.endAllowThreads, Event.bufferRelease]⟩

/-- The struct flock that posix_lock hands to the native call: the parsed
fields over the initialiser of the source. -/
def lockFlock (C : Consts) (a : LockArgs) : flock :=
  { l_type := a.type
    l_whence := a.whence.getD C.SEEK_SET
    l_len := a.len.getD 1
    l_start := a.start.getD 0
    l_pid := 0 }

/-- The method posix_lock; `args` is the outcome of
PyArg_ParseTupleAndKeywords with "ih|hLLb". -/
def py_glfs_fd_posix_lock (C : Consts) (E : Env) (self : py_glfs_fd_t) (args : Option LockArgs) :
    Outcome :=
  match args with
  | none => ⟨PyResult.error (PyErr.pending "PyArg_ParseTupleAndKeywords"), []⟩
  | some a =>
    let cmd := a.cmd
    let fl := lockFlock C a
    let verbose := a.verbose.getD 0
    if cmd ≠ C.F_GETLK ∧ cmd ≠ C.F_SETLK ∧ cmd ≠ C.F_SETLKW then
      ⟨PyResult.error (PyErr.valueError "%d: Invalid locking command." [cmd]), []⟩
    else if fl.l_type ≠ C.F_RDLCK ∧ fl.l_type ≠ C.F_WRLCK ∧ fl.l_type ≠ C.F_UNLCK then
      ⟨PyResult.error (PyErr.valueError "%d: Invalid lock type." [fl.l_type]), []⟩
    else if cmd = C.F_GETLK ∧ fl.l_type = C.F_UNLCK then
      ⟨PyResult.error (PyErr.valueError
        "Lock type of F_UNLCK may not be specified for an operation to read lock" []), []⟩
    else
      let r := E.glfs_posix_lock self.fd cmd fl
      if r.1 ≠ 0 then
        ⟨PyResult.error (set_glfs_exc "glfs_posix_lock()"),
          [Event.native (NativeCall.posix_lock self.fd cmd fl)]⟩
      else if verbose = 0 then
        ⟨PyResult.ok PyVal.none, [Event.native (NativeCall.posix_lock self.fd cmd fl)]⟩
      else
        ⟨PyResult.ok (PyVal.lockDict cmd r.2.l_type r.2.l_whence r.2.l_start r.2.l_len r.2.l_pid),
          [Event.native (NativeCall.posix_lock self.fd cmd fl)]⟩

/-- A call of one of the methods of the table py_glfs_fd_methods, with the
outcome of its argument parsing. -/
inductive MethodCall where
  | fstat
  | fsync
  | fchdir
  | fchmod (args : Option Int)
  | fchown (args : Option (Int × Int))
  | ftruncate (args : Option Int)
  | lseek (args : Option (Int × Option Int))
  | pread (args : Option (Int × Int))
  | pwrite (args : Option (PyObject × Int))
  | posix_lock (args : Option LockArgs)
deriving DecidableEq, Repr

/-- The method table py_glfs_fd_methods: each name with its function. -/
def py_glfs_fd_methods (C : Consts) (E : Env) (self : py_glfs_fd_t) : MethodCall → Outcome
  | .fstat => py_glfs_fd_fstat E self
  | .fsync => py_glfs_fd_fsync E self
  | .fchdir => py_glfs_fd_fchdir E self
  | .fchmod args => py_glfs_fd_fchmod E self args
  | .fchown args => py_glfs_fd_fchown E self args
  | .ftruncate args => py_glfs_fd_ftruncate E self args
  | .lseek args => py_glfs_fd_lseek E self args
  | .pread args => py_glfs_fd_pread C E self args
  | .pwrite args => py_glfs_fd_pwrite E self args
  | .posix_lock args => py_glfs_fd_posix_lock C E self args

/-! ## Predicates used in the statements -/

/-- The command is one of get, set, set-wait. -/
def validCmd (C : Consts) (cmd : Int) : Prop :=
  cmd = C.F_GETLK ∨ cmd = C.F_SETLK ∨ cmd = C.F_SETLKW

/-- The lock type is one of read, write, unlock. -/
def validType (C : Consts) (ty : Int) : Prop :=
  ty = C.F_RDLCK ∨ ty = C.F_WRLCK ∨ ty = C.F_UNLCK

instance (C : Consts) (cmd : Int) : Decidable (validCmd C cmd) := by
  unfold validCmd; infer_instance

instance (C : Consts) (ty : Int) : Decidable (validType C ty) := by
  unfold validType; infer_instance

/-- The exception is a ValueError. -/
def PyErr.isValueError : PyErr → Bool
  | .valueError _ _ => true
  | _ => false

/-- The ValueError of the first check of posix_lock. -/
def invalidCommandError (cmd : Int) : PyErr :=
  PyErr.valueError "%d: Invalid locking command." [cmd]

/-- The ValueError of the second check of posix_lock. -/
def invalidLockTypeError (ty : Int) : PyErr :=
  PyErr.valueError "%d: Invalid lock type." [ty]

/-- The ValueError of the third check of posix_lock. -/
def unlockOnGetError : PyErr :=
  PyErr.valueError "Lock type of F_UNLCK may not be specified for an operation to read lock" []

/-- The arguments of a method call pass parsing and every check the method
makes before its native call. -/
def argsAccepted (C : Consts) (E : Env) : MethodCall → Prop
  | .fstat => True
  | .fsync => True
  | .fchdir => True
  | .fchmod args => args.isSome = true
  | .fchown args => args.isSome = true
  | .ftruncate args => args.isSome = true
  | .lseek args => args.isSome = true
  | .pread args => ∃ offset cnt, args = some (offset, cnt) ∧ 0 ≤ cnt ∧ E.bytesAlloc cnt = true
  | .pwrite args => ∃ obj view offset, args = some (obj, offset) ∧ obj.checkBuffer = true ∧
      obj.getBuffer = some view ∧ view.contiguous = true
  | .posix_lock args => ∃ a, args = some a ∧ validCmd C a.cmd ∧ validType C a.type ∧
      ¬ (a.cmd = C.F_GETLK ∧ a.type = C.F_UNLCK)

/-! ## Concrete environments and inputs -/

/-- An environment in which every native call succeeds: status calls return
0, lseek returns the requested position, pread stores "abc" and returns 3,
pwrite returns the length it was given, and every allocation succeeds. -/
def envOk : Env where
  glfs_close := fun _ => 0
  glfs_fstat := fun _ => (0, ⟨33188, 1000, 1000, 5⟩)
  glfs_fsync := fun _ => 0
  glfs_fchdir := fun _ => 0
  glfs_fchmod := fun _ _ => 0
  glfs_fchown := fun _ _ _ => 0
  glfs_ftruncate := fun _ _ => 0
  glfs_lseek := fun _ pos _ => pos
  glfs_pread := fun _ _ _ _ => (3, [97, 98, 99])
  glfs_pwrite := fun _ _ len _ _ => len
  glfs_posix_lock := fun _ _ fl => (0, fl)
  tp_alloc := true
  bytesAlloc := fun _ => true
  uninit := fun _ => 0

/-- An environment in which every native call fails with -1 and the wrapper
allocation fails. -/
def envFail : Env where
  glfs_close := fun _ => -1
  glfs_fstat := fun _ => (-1, ⟨0, 0, 0, 0⟩)
  glfs_fsync := fun _ => -1
  glfs_fchdir := fun _ => -1
  glfs_fchmod := fun _ _ => -1
  glfs_fchown := fun _ _ _ => -1
  glfs_ftruncate := fun _ _ => -1
  glfs_lseek := fun _ _ _ => -1
  glfs_pread := fun _ _ _ _ => (-1, [])
  glfs_pwrite := fun _ _ _ _ _ => -1
  glfs_posix_lock := fun _ _ fl => (-1, fl)
  tp_alloc := false
  bytesAlloc := fun _ => true
  uninit := fun _ => 0

/-- The environment envOk, except that pwrite reports 2 octets written. -/
def envShortWrite : Env :=
  { envOk with glfs_pwrite := fun _ _ _ _ _ => 2 }

/-- An open handle: descriptor 7, opened read-write, parent object 1. -/
def openHandle : py_glfs_fd_t :=
  ⟨some 7, 2, some 1⟩

/-- The object that py_glfs_fd_new creates in envOk: its descriptor is NULL. -/
def closedHandle : py_glfs_fd_t :=
  ⟨none, 0, none⟩

/-- Reference counts in which every object has count 1. -/
def refsOne : Nat → Int :=
  fun _ => 1

/-! ## posix_lock: validation -/

/-- The three checks of posix_lock, as one case analysis on the parsed
command and lock type. -/
theorem posix_lock_checks (C : Consts) (E : Env) (self : py_glfs_fd_t) (a : LockArgs) :
    (¬ validCmd C a.cmd →
      py_glfs_fd_posix_lock C E self (some a) =
        ⟨PyResult.error (invalidCommandError a.cmd), []⟩) ∧
    (validCmd C a.cmd → ¬ validType C a.type →
      py_glfs_fd_posix_lock C E self (some a) =
        ⟨PyResult.error (invalidLockTypeError a.type), []⟩) ∧
    (a.cmd = C.F_GETLK → a.type = C.F_UNLCK →
      py_glfs_fd_posix_lock C E self (some a) = ⟨PyResult.error unlockOnGetError, []⟩) ∧
    (validCmd C a.cmd → validType C a.type → ¬ (a.cmd = C.F_GETLK ∧ a.type = C.F_UNLCK) →
      (py_glfs_fd_posix_lock C E self (some a)).trace =
        [Event.native (NativeCall.posix_lock self.fd a.cmd (lockFlock C a))] ∧
      ∀ e, (py_glfs_fd_posix_lock C E self (some a)).result = PyResult.error e →
        e = set_glfs_exc "glfs_posix_lock()") := by
  refine ⟨?_, ?_, ?_, ?_⟩
  · intro h
    have h1 : a.cmd ≠ C.F_GETLK ∧ a.cmd ≠ C.F_SETLK ∧ a.cmd ≠ C.F_SETLKW := by
      simpa [validCmd, not_or] using h
    simp [py_glfs_fd_posix_lock, invalidCommandError, h1]
  · intro hc ht
    have h1 : ¬ (a.cmd ≠ C.F_GETLK ∧ a.cmd ≠ C.F_SETLK ∧ a.cmd ≠ C.F_SETLKW) := by
      unfold validCmd at hc; tauto
    have h2 : a.type ≠ C.F_RDLCK ∧ a.type ≠ C.F_WRLCK ∧ a.type ≠ C.F_UNLCK := by
      simpa [validType, not_or] using ht
    simp only [py_glfs_fd_posix_lock, lockFlock, invalidLockTypeError]
    rw [if_neg h1, if_pos h2]
  · intro hc ht
    have h1 : ¬ (a.cmd ≠ C.F_GETLK ∧ a.cmd ≠ C.F_SETLK ∧ a.cmd ≠ C.F_SETLKW) := by
      rw [hc]; tauto
    have h2 : ¬ (a.type ≠ C.F_RDLCK ∧ a.type ≠ C.F_WRLCK ∧ a.type ≠ C.F_UNLCK) := by
      rw [ht]; tauto
    simp only [py_glfs_fd_posix_lock, lockFlock, unlockOnGetError]
    rw [if_neg h1, if_neg h2, if_pos ⟨hc, ht⟩]
  · intro hc ht hgu
    have h1 : ¬ (a.cmd ≠ C.F_GETLK ∧ a.cmd ≠ C.F_SETLK ∧ a.cmd ≠ C.F_SETLKW) := by
      unfold validCmd at hc; tauto
    have h2 : ¬ (a.type ≠ C.F_RDLCK ∧ a.type ≠ C.F_WRLCK ∧ a.type ≠ C.F_UNLCK) := by
      unfold validType at ht; tauto
    simp only [py_glfs_fd_posix_lock, lockFlock]
    rw [if_neg h1, if_neg h2, if_neg hgu]
    constructor
    · split_ifs <;> rfl
    · intro e he
      split_ifs at he
      injection he with he
      exact he.symm

/-- C2: for every parsed command, lock type, whence, start, length and verbose
flag and every environment (so every behaviour of the native lock call),
posix_lock fails with a ValueError and performs no event, hence issues no
native call, whenever the command is not one of get, set, set-wait, or the
lock type is not one of read, write, unlock, or the command is get and the
lock type is unlock. -/
theorem posix_lock_rejects_before_native (C : Consts) (E : Env) (self : py_glfs_fd_t) (a : LockArgs)
    (h : ¬ validCmd C a.cmd ∨ ¬ validType C a.type ∨
      (a.cmd = C.F_GETLK ∧ a.type = C.F_UNLCK)) :
    (∃ e, (py_glfs_fd_posix_lock C E self (some a)).result = PyResult.error e ∧
      e.isValueError = true) ∧
    (py_glfs_fd_posix_lock C E self (some a)).trace = [] ∧
    nativeCalls (py_glfs_fd_posix_lock C E self (some a)).trace = [] := by
  obtain ⟨k1, k2, k3, -⟩ := posix_lock_checks C E self a
  by_cases hc : validCmd C a.cmd
  · by_cases ht : validType C a.type
    · rcases h with h | h | h
      · exact absurd hc h
      · exact absurd ht h
      · rw [k3 h.1 h.2]
        exact ⟨⟨_, rfl, rfl⟩, rfl, rfl⟩
    · rw [k2 hc ht]
      exact ⟨⟨_, rfl, rfl⟩, rfl, rfl⟩
  · rw [k1 hc]
    exact ⟨⟨_, rfl, rfl⟩, rfl, rfl⟩

/-- Witness of C2 on Linux: command 9 is no locking command, lock type 9 is no
lock type, and get (5) with unlock (2) is the forbidden combination; the
native call of envOk would have succeeded. -/
theorem posix_lock_rejects_before_native_witness :
    ((∃ e, (py_glfs_fd_posix_lock linux envOk openHandle
        (some ⟨9, 1, none, none, none, none⟩)).result = PyResult.error e ∧
      e.isValueError = true) ∧
    (py_glfs_fd_posix_lock linux envOk openHandle
      (some ⟨9, 1, none, none, none, none⟩)).trace = [] ∧
    nativeCalls (py_glfs_fd_posix_lock linux envOk openHandle
      (some ⟨9, 1, none, none, none, none⟩)).trace = []) ∧
    ((∃ e, (py_glfs_fd_posix_lock linux envOk openHandle
        (some ⟨5, 2, none, none, none, none⟩)).result = PyResult.error e ∧
      e.isValueError = true) ∧
    (py_glfs_fd_posix_lock linux envOk openHandle
      (some ⟨5, 2, none, none, none, none⟩)).trace = [] ∧
    nativeCalls (py_glfs_fd_posix_lock linux envOk openHandle
      (some ⟨5, 2, none, none, none, none⟩)).trace = []) :=
  ⟨posix_lock_rejects_before_native linux envOk openHandle ⟨9, 1, none, none, none, none⟩
      (Or.inl (by decide)),
    posix_lock_rejects_before_native linux envOk openHandle ⟨5, 2, none, none, none, none⟩
      (Or.inr (Or.inr (by decide)))⟩

/-- C10: posix_lock applies its checks in the order command, lock type,
get-with-unlock, each with its own error: an invalid command gives the
invalid-command error whatever the lock type is; a valid command with an
invalid lock type gives the invalid-lock-type error; the get-with-unlock error
is given exactly when the command is get and the type is unlock, and then
command and type are both valid; and the three errors are pairwise different. -/
theorem posix_lock_check_order (C : Consts) (E : Env) (self : py_glfs_fd_t) (a : LockArgs) :
    (¬ validCmd C a.cmd →
      (py_glfs_fd_posix_lock C E self (some a)).result =
        PyResult.error (invalidCommandError a.cmd)) ∧
    (validCmd C a.cmd → ¬ validType C a.type →
      (py_glfs_fd_posix_lock C E self (some a)).result =
        PyResult.error (invalidLockTypeError a.type)) ∧
    ((py_glfs_fd_posix_lock C E self (some a)).result = PyResult.error unlockOnGetError ↔
      a.cmd = C.F_GETLK ∧ a.type = C.F_UNLCK) ∧
    ((py_glfs_fd_posix_lock C E self (some a)).result = PyResult.error unlockOnGetError →
      validCmd C a.cmd ∧ validType C a.type) ∧
    (∀ x y : Int, invalidCommandError x ≠ invalidLockTypeError y ∧
      invalidCommandError x ≠ unlockOnGetError ∧ invalidLockTypeError y ≠ unlockOnGetError) := by
  obtain ⟨k1, k2, k3, k4⟩ := posix_lock_checks C E self a
  have key : (py_glfs_fd_posix_lock C E self (some a)).result = PyResult.error unlockOnGetError →
      a.cmd = C.F_GETLK ∧ a.type = C.F_UNLCK := by
    intro hr
    by_contra hgu
    by_cases hc : validCmd C a.cmd
    · by_cases ht : validType C a.type
      · have := (k4 hc ht hgu).2 _ hr
        simp [unlockOnGetError, set_glfs_exc] at this
      · rw [k2 hc ht] at hr
        simp [unlockOnGetError, invalidLockTypeError] at hr
    · rw [k1 hc] at hr
      simp [unlockOnGetError, invalidCommandError] at hr
  refine ⟨fun h => by rw [k1 h], fun hc ht => by rw [k2 hc ht], ⟨key, fun h => by rw [k3 h.1 h.2]⟩,
    fun hr => ?_, fun x y => ?_⟩
  · obtain ⟨hc, ht⟩ := key hr
    exact ⟨Or.inl hc, Or.inr (Or.inr ht)⟩
  · simp [invalidCommandError, invalidLockTypeError, unlockOnGetError]

/-- Witness of C10 on Linux: command 9 with lock type 9 reports the command,
command 5 with lock type 9 reports the lock type, and command 5 with lock
type 2 reports the get-with-unlock combination. -/
theorem posix_lock_check_order_witness :
    (py_glfs_fd_posix_lock linux envOk openHandle
      (some ⟨9, 9, none, none, none, none⟩)).result = PyResult.error (invalidCommandError 9) ∧
    (py_glfs_fd_posix_lock linux envOk openHandle
      (some ⟨5, 9, none, none, none, none⟩)).result = PyResult.error (invalidLockTypeError 9) ∧
    (py_glfs_fd_posix_lock linux envOk openHandle
      (some ⟨5, 2, none, none, none, none⟩)).result = PyResult.error unlockOnGetError :=
  ⟨(posix_lock_check_order linux envOk openHandle ⟨9, 9, none, none, none, none⟩).1
      (by decide),
    (posix_lock_check_order linux envOk openHandle ⟨5, 9, none, none, none, none⟩).2.1
      (by decide) (by decide),
    (posix_lock_check_order linux envOk openHandle ⟨5, 2, none, none, none, none⟩).2.2.1.2
      ⟨rfl, rfl⟩⟩

/-! ## pread and pwrite -/

theorem length_freshBytes (E : Env) (cnt : Int) : (freshBytes E cnt).length = cnt.toNat := by
  simp [freshBytes]

theorem length_storeInto (buffer data : List Byte) :
    (storeInto buffer data).length = buffer.length := by
  simp only [storeInto, List.length_take, List.length_append, List.length_drop]
  omega

theorem take_storeInto (buffer data : List Byte) (k : Nat) (hk : k ≤ data.length)
    (hb : k ≤ buffer.length) : (storeInto buffer data).take k = data.take k := by
  simp only [storeInto, List.take_take]
  rw [min_eq_left hb, List.take_append_of_le_length hk]

/-- C3: for every offset and every count below zero, pread fails with the
errno exception for EINVAL attributed to "glfs_pread()", performs no event at
all, so neither PyBytes_FromStringAndSize nor the native pread is called. -/
theorem pread_negative_count (C : Consts) (E : Env) (self : py_glfs_fd_t) (offset cnt : Int)
    (h : cnt < 0) :
    (py_glfs_fd_pread C E self (some (offset, cnt))).result =
      PyResult.error (PyErr.errnoError C.EINVAL "glfs_pread()") ∧
    (py_glfs_fd_pread C E self (some (offset, cnt))).trace = [] ∧
    (∀ k, Event.bytesNew k ∉ (py_glfs_fd_pread C E self (some (offset, cnt))).trace) ∧
    nativeCalls (py_glfs_fd_pread C E self (some (offset, cnt))).trace = [] := by
  simp [py_glfs_fd_pread, h, set_exc_from_errno, nativeCalls]

/-- Witness of C3: pread(0, -1) on an open handle, in an environment whose
native pread would have succeeded. -/
theorem pread_negative_count_witness :
    (py_glfs_fd_pread linux envOk openHandle (some (0, -1))).result =
      PyResult.error (PyErr.errnoError 22 "glfs_pread()") ∧
    (py_glfs_fd_pread linux envOk openHandle (some (0, -1))).trace = [] ∧
    (∀ k, Event.bytesNew k ∉ (py_glfs_fd_pread linux envOk openHandle (some (0, -1))).trace) ∧
    nativeCalls (py_glfs_fd_pread linux envOk openHandle (some (0, -1))).trace = [] :=
  pread_negative_count linux envOk openHandle 0 (-1) (by decide)

/-- C5: for every offset and count at least zero whose bytes object is
allocated, let the native pread return n after storing `data` in the buffer.
If n lies between 0 and count, pread returns a bytes object of length exactly
n whose content is the first n octets of the buffer as the native call left
it (the first n octets of `data` when the call stored that many); if n is
negative, pread returns the native error and no bytes object. -/
theorem pread_returns_bytes_read (C : Consts) (E : Env) (self : py_glfs_fd_t) (offset cnt n : Int)
    (data : List Byte) (hcnt : 0 ≤ cnt) (halloc : E.bytesAlloc cnt = true)
    (hnative : E.glfs_pread self.fd cnt offset 0 = (n, data)) :
    (0 ≤ n → n ≤ cnt →
      ∃ b, (py_glfs_fd_pread C E self (some (offset, cnt))).result = PyResult.ok (PyVal.bytes b) ∧
        (b.length : Int) = n ∧
        b = (storeInto (freshBytes E cnt) data).take n.toNat ∧
        (n.toNat ≤ data.length → b = data.take n.toNat)) ∧
    (n < 0 →
      (py_glfs_fd_pread C E self (some (offset, cnt))).result =
        PyResult.error (set_glfs_exc "glfs_pread()")) := by
  have hlen : (storeInto (freshBytes E cnt) data).length = cnt.toNat := by
    rw [length_storeInto, length_freshBytes]
  constructor
  · intro h0 hle
    have hn : n.toNat ≤ cnt.toNat := Int.toNat_le_toNat hle
    have hneg : ¬ cnt < 0 := not_lt.mpr hcnt
    have hneg2 : ¬ n < 0 := not_lt.mpr h0
    by_cases heq : n = cnt
    · refine ⟨storeInto (freshBytes E cnt) data, ?_, ?_, ?_, ?_⟩
      · simp [py_glfs_fd_pread, hneg, halloc, hnative, heq]
      · rw [hlen, heq]; exact Int.toNat_of_nonneg hcnt
      · rw [heq, ← hlen, List.take_length]
      · intro hd
        rw [← take_storeInto (freshBytes E cnt) data n.toNat hd (by rw [length_freshBytes]; exact hn)]
        rw [heq, ← hlen, List.take_length]
    · have hres : bytesResize E (storeInto (freshBytes E cnt) data) n =
          (storeInto (freshBytes E cnt) data).take n.toNat := by
        unfold bytesResize
        rw [hlen, Nat.sub_eq_zero_of_le hn]
        simp
      refine ⟨(storeInto (freshBytes E cnt) data).take n.toNat, ?_, ?_, rfl, ?_⟩
      · simp [py_glfs_fd_pread, hneg, halloc, hnative, heq, hneg2, hres]
      · rw [List.length_take, hlen, min_eq_left hn]; exact Int.toNat_of_nonneg h0
      · intro hd
        exact take_storeInto (freshBytes E cnt) data n.toNat hd (by rw [length_freshBytes]; exact hn)
  · intro hlt
    have hneg : ¬ cnt < 0 := not_lt.mpr hcnt
    simp [py_glfs_fd_pread, hneg, halloc, hnative, hlt]

/-- Witness of C5: pread(0, 5) where the native call stores "abc" and returns
3 gives the three octets, not five; and where the native call returns -1 it
gives the native error. -/
theorem pread_returns_bytes_read_witness :
    (∃ b, (py_glfs_fd_pread linux envOk openHandle (some (0, 5))).result =
        PyResult.ok (PyVal.bytes b) ∧
      (b.length : Int) = 3 ∧
      b = (storeInto (freshBytes envOk 5) [97, 98, 99]).take (3 : Int).toNat ∧
      ((3 : Int).toNat ≤ [97, 98, 99].length → b = [97, 98, 99].take (3 : Int).toNat)) ∧
    (py_glfs_fd_pread linux envFail openHandle (some (0, 5))).result =
      PyResult.error (set_glfs_exc "glfs_pread()") :=
  ⟨(pread_returns_bytes_read linux envOk openHandle 0 5 3 [97, 98, 99] (by decide) rfl rfl).1
      (by decide) (by decide),
    (pread_returns_bytes_read linux envFail openHandle 0 5 (-1) [] (by decide) rfl rfl).2
      (by decide)⟩

/-- C6: for every object that is a buffer, whose view is obtained and is
contiguous, and every offset, pwrite issues exactly one native call, the
pwrite of the whole view (its octets and its length) at that offset, and
returns the integer the native call reports, whatever it is, unless that
integer is -1, in which case it fails with the native error. -/
theorem pwrite_returns_native_count (E : Env) (self : py_glfs_fd_t) (obj : PyObject)
    (view : Py_buffer) (offset : Int) (hcheck : obj.checkBuffer = true)
    (hget : obj.getBuffer = some view) (hcontig : view.contiguous = true) :
    nativeCalls (py_glfs_fd_pwrite E self (some (obj, offset))).trace =
      [NativeCall.pwrite self.fd view.buf view.buf.length offset 0] ∧
    (E.glfs_pwrite self.fd view.buf view.buf.length offset 0 ≠ -1 →
      (py_glfs_fd_pwrite E self (some (obj, offset))).result =
        PyResult.ok (PyVal.long (E.glfs_pwrite self.fd view.buf view.buf.length offset 0))) ∧
    (E.glfs_pwrite self.fd view.buf view.buf.length offset 0 = -1 →
      (py_glfs_fd_pwrite E self (some (obj, offset))).result =
        PyResult.error (set_glfs_exc "glfs_pwrite()")) := by
  refine ⟨?_, ?_, ?_⟩
  · simp [py_glfs_fd_pwrite, hcheck, hget, hcontig, nativeCalls]
  · intro h
    simp [py_glfs_fd_pwrite, hcheck, hget, hcontig, h]
  · intro h
    simp [py_glfs_fd_pwrite, hcheck, hget, hcontig, h]

/-- Witness of C6: a five-octet buffer written at offset 0 where the native
call reports 2 octets written: the whole buffer is passed and 2 is returned. -/
theorem pwrite_returns_native_count_witness :
    nativeCalls (py_glfs_fd_pwrite envShortWrite openHandle
        (some (⟨true, some ⟨[104, 101, 108, 108, 111], true⟩⟩, 0))).trace =
      [NativeCall.pwrite (some 7) [104, 101, 108, 108, 111] 5 0 0] ∧
    (py_glfs_fd_pwrite envShortWrite openHandle
        (some (⟨true, some ⟨[104, 101, 108, 108, 111], true⟩⟩, 0))).result =
      PyResult.ok (PyVal.long 2) :=
  ⟨(pwrite_returns_native_count envShortWrite openHandle
      ⟨true, some ⟨[104, 101, 108, 108, 111], true⟩⟩ ⟨[104, 101, 108, 108, 111], true⟩ 0
      rfl rfl rfl).1,
    (pwrite_returns_native_count envShortWrite openHandle
      ⟨true, some ⟨[104, 101, 108, 108, 111], true⟩⟩ ⟨[104, 101, 108, 108, 111], true⟩ 0
      rfl rfl rfl).2.1 (by decide)⟩

/-! ## Construction and destruction -/

/-- C7: for every descriptor, parent and flags: when the allocation of the
wrapper fails, init_glfs_fd issues exactly one native call, the close of the
descriptor passed in, returns the error and leaves every reference count as it
was, with no Py_INCREF of the parent; when the allocation succeeds, it issues
no native call, returns a handle holding the descriptor, the flags and the
parent, and raises the reference count of the parent by exactly one, leaving
the other counts as they were. -/
theorem init_glfs_fd_ownership (E : Env) (refcnt : Nat → Int) (fd_in : GlfsFd) (hdl : Nat)
    (flags : Int) :
    (E.tp_alloc = false →
      (∃ e, (init_glfs_fd E refcnt fd_in hdl flags).result = Except.error e) ∧
      nativeCalls (init_glfs_fd E refcnt fd_in hdl flags).trace = [NativeCall.close fd_in] ∧
      closeCount (init_glfs_fd E refcnt fd_in hdl flags).trace = 1 ∧
      increfCount hdl (init_glfs_fd E refcnt fd_in hdl flags).trace = 0 ∧
      (init_glfs_fd E refcnt fd_in hdl flags).refcnt = refcnt) ∧
    (E.tp_alloc = true →
      (∃ h, (init_glfs_fd E refcnt fd_in hdl flags).result = Except.ok h ∧
        h.fd = fd_in ∧ h.flags = flags ∧ h.parent = some hdl) ∧
      nativeCalls (init_glfs_fd E refcnt fd_in hdl flags).trace = [] ∧
      closeCount (init_glfs_fd E refcnt fd_in hdl flags).trace = 0 ∧
      increfCount hdl (init_glfs_fd E refcnt fd_in hdl flags).trace = 1 ∧
      (init_glfs_fd E refcnt fd_in hdl flags).refcnt hdl = refcnt hdl + 1 ∧
      ∀ q, q ≠ hdl → (init_glfs_fd E refcnt fd_in hdl flags).refcnt q = refcnt q) := by
  constructor
  · intro h
    simp [init_glfs_fd, PyGlfsFd_call, py_glfs_fd_new, h, nativeCalls, closeCount, increfCount]
  · intro h
    simp only [init_glfs_fd, PyGlfsFd_call, py_glfs_fd_new, py_glfs_fd_init, h, if_true]
    refine ⟨⟨_, rfl, rfl, rfl, rfl⟩, ?_, ?_, ?_, ?_, ?_⟩
    · simp [nativeCalls]
    · simp [closeCount]
    · simp [increfCount]
    · simp
    · intro q hq
      simp [Function.update, hq]

/-- Witness of C7: in envFail the allocation fails and descriptor 7 is closed
once with the count of parent 1 still 1; in envOk the allocation succeeds,
nothing is closed and the count of parent 1 becomes 2. -/
theorem init_glfs_fd_ownership_witness :
    (nativeCalls (init_glfs_fd envFail refsOne (some 7) 1 2).trace =
        [NativeCall.close (some 7)] ∧
      (init_glfs_fd envFail refsOne (some 7) 1 2).refcnt = refsOne) ∧
    (nativeCalls (init_glfs_fd envOk refsOne (some 7) 1 2).trace = [] ∧
      (init_glfs_fd envOk refsOne (some 7) 1 2).refcnt 1 = refsOne 1 + 1) :=
  ⟨⟨((init_glfs_fd_ownership envFail refsOne (some 7) 1 2).1 rfl).2.1,
      ((init_glfs_fd_ownership envFail refsOne (some 7) 1 2).1 rfl).2.2.2.2⟩,
    ⟨((init_glfs_fd_ownership envOk refsOne (some 7) 1 2).2 rfl).2.1,
      ((init_glfs_fd_ownership envOk refsOne (some 7) 1 2).2 rfl).2.2.2.2.1⟩⟩

/-- The events of the first statement of the destructor: one close when the
descriptor is set, none otherwise, and no Py_DECREF. -/
theorem deallocClose_events (E : Env) (self : py_glfs_fd_t) (p : Nat) :
    closeCount (deallocClose E self).2 = (if self.fd.isSome then 1 else 0) ∧
    nativeCalls (deallocClose E self).2 = (self.fd.map fun fd => NativeCall.close (some fd)).toList ∧
    decrefCount p (deallocClose E self).2 = 0 ∧
    (deallocClose E self).1.fd = none ∧
    (deallocClose E self).1.parent = self.parent := by
  unfold deallocClose
  cases hfd : self.fd with
  | none => simp [closeCount, nativeCalls, decrefCount, hfd]
  | some fd =>
    by_cases hr : E.glfs_close (some fd) = -1
    · simp [closeCount, nativeCalls, decrefCount, hr]
    · simp [closeCount, nativeCalls, decrefCount, hr]

theorem closeCount_append (xs ys : List Event) :
    closeCount (xs ++ ys) = closeCount xs + closeCount ys := by
  induction xs with
  | nil => simp [closeCount]
  | cons x xs ih =>
    cases x with
    | native c => cases c <;> simp [closeCount, ih, Nat.add_right_comm]
    | _ => simp [closeCount, ih]

theorem nativeCalls_append (xs ys : List Event) :
    nativeCalls (xs ++ ys) = nativeCalls xs ++ nativeCalls ys := by
  induction xs with
  | nil => simp [nativeCalls]
  | cons x xs ih => cases x <;> simp [nativeCalls, ih]

theorem decrefCount_append (p : Nat) (xs ys : List Event) :
    decrefCount p (xs ++ ys) = decrefCount p xs + decrefCount p ys := by
  induction xs with
  | nil => simp [decrefCount]
  | cons x xs ih => cases x <;> simp [decrefCount, ih, Nat.add_assoc]

/-- C9: for every handle and every result of the native close: the destructor
issues the native close exactly once when the descriptor is set and not at
all when it is NULL; its only native call is that close; it returns nothing
(a close failure is only written to stderr); the descriptor is NULL
afterwards; and for a handle with parent p the trace ends with exactly one
Py_DECREF of p, after the close, followed by tp_free, so that the count of p
drops by one and no other count changes. -/
theorem dealloc_closes_and_releases (E : Env) (refcnt : Nat → Int) (self : py_glfs_fd_t) :
    closeCount (py_glfs_fd_dealloc E refcnt self).trace = (if self.fd.isSome then 1 else 0) ∧
    nativeCalls (py_glfs_fd_dealloc E refcnt self).trace =
      (self.fd.map fun fd => NativeCall.close (some fd)).toList ∧
    (py_glfs_fd_dealloc E refcnt self).self.fd = none ∧
    (∀ msg, Event.stderr msg ∈ (py_glfs_fd_dealloc E refcnt self).trace →
      E.glfs_close self.fd = -1) ∧
    (∀ p, self.parent = some p →
      (∃ pre, (py_glfs_fd_dealloc E refcnt self).trace = pre ++ [Event.decref p, Event.tpFree] ∧
        closeCount pre = (if self.fd.isSome then 1 else 0) ∧ decrefCount p pre = 0) ∧
      decrefCount p (py_glfs_fd_dealloc E refcnt self).trace = 1 ∧
      (py_glfs_fd_dealloc E refcnt self).refcnt p = refcnt p - 1 ∧
      ∀ q, q ≠ p → (py_glfs_fd_dealloc E refcnt self).refcnt q = refcnt q) := by
  have hc := fun p => deallocClose_events E self p
  refine ⟨?_, ?_, ?_, ?_, ?_⟩
  · simp only [py_glfs_fd_dealloc, closeCount_append, (hc 0).1]
    unfold deallocClear
    cases (deallocClose E self).1.parent <;> simp [closeCount]
  · simp only [py_glfs_fd_dealloc, nativeCalls_append, (hc 0).2.1]
    unfold deallocClear
    cases (deallocClose E self).1.parent <;> simp [nativeCalls]
  · simp only [py_glfs_fd_dealloc]
    unfold deallocClear
    have := (hc 0).2.2.2.1
    cases (deallocClose E self).1.parent <;> simp [this]
  · intro msg hmem
    simp only [py_glfs_fd_dealloc, List.mem_append] at hmem
    rcases hmem with (hmem | hmem) | hmem
    · unfold deallocClose at hmem
      cases hfd : self.fd with
      | none => simp [hfd] at hmem
      | some fd =>
        simp only [hfd] at hmem
        by_cases hr : E.glfs_close (some fd) = -1
        · exact hr
        · simp [hr] at hmem
    · unfold deallocClear at hmem
      cases hp : (deallocClose E self).1.parent <;> simp [hp] at hmem
    · simp at hmem
  · intro p hp
    have hpar : (deallocClose E self).1.parent = some p := by rw [(hc p).2.2.2.2, hp]
    have htrace : (py_glfs_fd_dealloc E refcnt self).trace =
        (deallocClose E self).2 ++ [Event.decref p, Event.tpFree] := by
      simp [py_glfs_fd_dealloc, deallocClear, hpar]
    have hcnt : (py_glfs_fd_dealloc E refcnt self).refcnt =
        Function.update refcnt p (refcnt p - 1) := by
      simp [py_glfs_fd_dealloc, deallocClear, hpar]
    refine ⟨⟨(deallocClose E self).2, htrace, (hc p).1, (hc p).2.2.1⟩, ?_, ?_, ?_⟩
    · rw [htrace, decrefCount_append, (hc p).2.2.1]
      simp [decrefCount]
    · rw [hcnt]; simp
    · intro q hq
      rw [hcnt]; simp [Function.update, hq]

/-- Witness of C9: the open handle with parent 1 is destroyed while the
native close fails: one close, the descriptor is NULL afterwards, the count
of the parent drops from 1 to 0, and one Py_DECREF of the parent is traced. -/
theorem dealloc_closes_and_releases_witness :
    closeCount (py_glfs_fd_dealloc envFail refsOne openHandle).trace = 1 ∧
    (py_glfs_fd_dealloc envFail refsOne openHandle).self.fd = none ∧
    decrefCount 1 (py_glfs_fd_dealloc envFail refsOne openHandle).trace = 1 ∧
    (py_glfs_fd_dealloc envFail refsOne openHandle).refcnt 1 = refsOne 1 - 1 :=
  ⟨(dealloc_closes_and_releases envFail refsOne openHandle).1,
    (dealloc_closes_and_releases envFail refsOne openHandle).2.2.1,
    ((dealloc_closes_and_releases envFail refsOne openHandle).2.2.2.2 1 rfl).2.1,
    ((dealloc_closes_and_releases envFail refsOne openHandle).2.2.2.2 1 rfl).2.2.1⟩

/-! ## Operations on a handle whose descriptor is NULL -/

/-- C1, as stated, fails: the object that py_glfs_fd_new creates has a NULL
descriptor, and fstat on it issues the native fstat on NULL and, when that
call reports success, returns the stat record instead of failing. -/
theorem closed_handle_fstat_calls_native :
    py_glfs_fd_new envOk = some closedHandle ∧
    closedHandle.fd = none ∧
    nativeCalls (py_glfs_fd_methods linux envOk closedHandle MethodCall.fstat).trace =
      [NativeCall.fstat none] ∧
    (py_glfs_fd_methods linux envOk closedHandle MethodCall.fstat).result =
      PyResult.ok (PyVal.pystat ⟨33188, 1000, 1000, 5⟩) := by
  refine ⟨rfl, rfl, ?_, ?_⟩
  · simp [py_glfs_fd_methods, py_glfs_fd_fstat, nativeCalls, closedHandle]
  · simp [py_glfs_fd_methods, py_glfs_fd_fstat, envOk, stat_to_pystat]

/-- C1, amended: the methods do not inspect the descriptor.  For every handle
whose descriptor is NULL and every method call whose arguments pass parsing
and the checks of the method, the method issues exactly one native call, on
the NULL descriptor, and the only error it can return is the native error
built by set_glfs_exc from the result of that call. -/
theorem closed_handle_passes_null_to_native (C : Consts) (E : Env) (self : py_glfs_fd_t)
    (call : MethodCall) (hclosed : self.fd = none) (hargs : argsAccepted C E call) :
    (∃ c, nativeCalls (py_glfs_fd_methods C E self call).trace = [c] ∧ c.fd = none) ∧
    (∀ e, (py_glfs_fd_methods C E self call).result = PyResult.error e →
      ∃ op, e = set_glfs_exc op) := by
  cases call with
  | fstat =>
    simp only [py_glfs_fd_methods, py_glfs_fd_fstat, hclosed, stat_to_pystat]
    refine ⟨⟨NativeCall.fstat none, by simp [nativeCalls], rfl⟩, fun e he => ?_⟩
    split_ifs at he
    exact ⟨_, by injection he with he; exact he.symm⟩
  | fsync =>
    simp only [py_glfs_fd_methods, py_glfs_fd_fsync, hclosed]
    refine ⟨⟨NativeCall.fsync none, by simp [nativeCalls], rfl⟩, fun e he => ?_⟩
    split_ifs at he
    exact ⟨_, by injection he with he; exact he.symm⟩
  | fchdir =>
    simp only [py_glfs_fd_methods, py_glfs_fd_fchdir, hclosed]
    refine ⟨⟨NativeCall.fchdir none, by simp [nativeCalls], rfl⟩, fun e he => ?_⟩
    split_ifs at he
    exact ⟨_, by injection he with he; exact he.symm⟩
  | fchmod args =>
    cases args with
    | none => simp [argsAccepted] at hargs
    | some mode =>
      simp only [py_glfs_fd_methods, py_glfs_fd_fchmod, hclosed]
      refine ⟨⟨NativeCall.fchmod none mode, by simp [nativeCalls], rfl⟩, fun e he => ?_⟩
      split_ifs at he
      exact ⟨_, by injection he with he; exact he.symm⟩
  | fchown args =>
    cases args with
    | none => simp [argsAccepted] at hargs
    | some ids =>
      obtain ⟨uid, gid⟩ := ids
      simp only [py_glfs_fd_methods, py_glfs_fd_fchown, hclosed]
      refine ⟨⟨NativeCall.fchown none (toUInt32 uid) (toUInt32 gid), by simp [nativeCalls], rfl⟩,
        fun e he => ?_⟩
      split_ifs at he
      exact ⟨_, by injection he with he; exact he.symm⟩
  | ftruncate args =>
    cases args with
    | none => simp [argsAccepted] at hargs
    | some length =>
      simp only [py_glfs_fd_methods, py_glfs_fd_ftruncate, hclosed]
      refine ⟨⟨NativeCall.ftruncate none length, by simp [nativeCalls], rfl⟩, fun e he => ?_⟩
      split_ifs at he
      exact ⟨_, by injection he with he; exact he.symm⟩
  | lseek args =>
    cases args with
    | none => simp [argsAccepted] at hargs
    | some ph =>
      obtain ⟨pos, how⟩ := ph
      simp only [py_glfs_fd_methods, py_glfs_fd_lseek, hclosed]
      refine ⟨⟨NativeCall.lseek none pos (how.getD 0), by simp [nativeCalls], rfl⟩,
        fun e he => ?_⟩
      split_ifs at he
      exact ⟨_, by injection he with he; exact he.symm⟩
  | pread args =>
    obtain ⟨offset, cnt, rfl, hcnt, halloc⟩ := hargs
    have hneg : ¬ cnt < 0 := not_lt.mpr hcnt
    simp only [py_glfs_fd_methods, py_glfs_fd_pread, hclosed, if_neg hneg, halloc,
      Bool.true_eq_false, if_false]
    constructor
    · refine ⟨NativeCall.pread none cnt offset 0, ?_, rfl⟩
      split_ifs <;> simp [nativeCalls]
    · intro e he
      split_ifs at he
      exact ⟨_, by injection he with he; exact he.symm⟩
  | pwrite args =>
    obtain ⟨obj, view, offset, rfl, hcheck, hget, hcontig⟩ := hargs
    simp only [py_glfs_fd_methods, py_glfs_fd_pwrite, hclosed, hcheck, hget, hcontig,
      Bool.true_eq_false, if_false]
    refine ⟨⟨NativeCall.pwrite none view.buf view.buf.length offset 0, by simp [nativeCalls],
      rfl⟩, fun e he => ?_⟩
    split_ifs at he
    exact ⟨_, by injection he with he; exact he.symm⟩
  | posix_lock args =>
    obtain ⟨a, rfl, hc, ht, hgu⟩ := hargs
    obtain ⟨htr, herr⟩ := (posix_lock_checks C E self a).2.2.2 hc ht hgu
    simp only [py_glfs_fd_methods]
    refine ⟨⟨NativeCall.posix_lock self.fd a.cmd (lockFlock C a), by rw [htr]; simp [nativeCalls],
      by simp [NativeCall.fd, hclosed]⟩, fun e he => ⟨_, herr e he⟩⟩

/-- Witness of the amended C1: pread(0, 5) on the object with the NULL
descriptor issues the native pread on NULL. -/
theorem closed_handle_passes_null_to_native_witness :
    (∃ c, nativeCalls (py_glfs_fd_methods linux envOk closedHandle
        (MethodCall.pread (some (0, 5)))).trace = [c] ∧ c.fd = none) ∧
    (∀ e, (py_glfs_fd_methods linux envOk closedHandle
        (MethodCall.pread (some (0, 5)))).result = PyResult.error e →
      ∃ op, e = set_glfs_exc op) :=
  closed_handle_passes_null_to_native linux envOk closedHandle (MethodCall.pread (some (0, 5)))
    rfl ⟨0, 5, rfl, by decide, rfl⟩

/-! ## lseek -/

/-- The method lseek succeeds exactly when the value the native call returns,
converted to a C int, is zero. -/
theorem lseek_succeeds_iff (E : Env) (self : py_glfs_fd_t) (pos : Int) (how : Option Int) :
    (py_glfs_fd_lseek E self (some (pos, how))).result = PyResult.ok PyVal.none ↔
      toCInt (E.glfs_lseek self.fd pos (how.getD 0)) = 0 := by
  simp only [py_glfs_fd_lseek]
  by_cases h : toCInt (E.glfs_lseek self.fd pos (Option.getD how 0)) = 0
  · simp [h]
  · simp [h]

/-- C4 at a failing input: seeking to position 5 from the start, where the
native lseek succeeds and returns the new offset 5 (not -1), makes lseek
return the native error. -/
theorem lseek_fails_on_successful_seek :
    envOk.glfs_lseek openHandle.fd 5 0 = 5 ∧
    (py_glfs_fd_lseek envOk openHandle (some (5, some 0))).result =
      PyResult.error (set_glfs_exc "glfs_lseek()") ∧
    nativeCalls (py_glfs_fd_lseek envOk openHandle (some (5, some 0))).trace =
      [NativeCall.lseek (some 7) 5 0] := by
  refine ⟨rfl, ?_, ?_⟩
  · simp [py_glfs_fd_lseek, envOk, toCInt]
  · simp [py_glfs_fd_lseek, nativeCalls, openHandle]

/-! ## The interpreter lock -/

/-- Every method other than posix_lock keeps the lock discipline: whatever
its arguments and the environment, its native call happens between
Py_BEGIN_ALLOW_THREADS and Py_END_ALLOW_THREADS and the lock is held when it
returns. -/
theorem gil_released_by_other_methods (C : Consts) (E : Env) (self : py_glfs_fd_t)
    (call : MethodCall) (hcall : ∀ args, call ≠ MethodCall.posix_lock args) :
    gilSafe (py_glfs_fd_methods C E self call).trace = true := by
  cases call with
  | fstat => simp [py_glfs_fd_methods, py_glfs_fd_fstat, gilSafe, gilDiscipline]
  | fsync => simp [py_glfs_fd_methods, py_glfs_fd_fsync, gilSafe, gilDiscipline]
  | fchdir => simp [py_glfs_fd_methods, py_glfs_fd_fchdir, gilSafe, gilDiscipline]
  | fchmod args =>
    cases args <;> simp [py_glfs_fd_methods, py_glfs_fd_fchmod, gilSafe, gilDiscipline]
  | fchown args =>
    cases args <;> simp [py_glfs_fd_methods, py_glfs_fd_fchown, gilSafe, gilDiscipline]
  | ftruncate args =>
    cases args <;> simp [py_glfs_fd_methods, py_glfs_fd_ftruncate, gilSafe, gilDiscipline]
  | lseek args =>
    cases args <;> simp [py_glfs_fd_methods, py_glfs_fd_lseek, gilSafe, gilDiscipline]
  | pread args =>
    cases args with
    | none => simp [py_glfs_fd_methods, py_glfs_fd_pread, gilSafe, gilDiscipline]
    | some oc =>
      simp only [py_glfs_fd_methods, py_glfs_fd_pread]
      split_ifs <;> simp [gilSafe, gilDiscipline]
  | pwrite args =>
    cases args with
    | none => simp [py_glfs_fd_methods, py_glfs_fd_pwrite, gilSafe, gilDiscipline]
    | some oo =>
      simp only [py_glfs_fd_methods, py_glfs_fd_pwrite]
      split_ifs
      · simp [gilSafe, gilDiscipline]
      · cases oo.1.getBuffer with
        | none => simp [gilSafe, gilDiscipline]
        | some view => dsimp only; split_ifs <;> simp [gilSafe, gilDiscipline]
  | posix_lock args => exact absurd rfl (hcall args)

/-- The method posix_lock breaks the lock discipline on every input that
reaches its native call: the call is its only event, made with the lock held. -/
theorem posix_lock_keeps_gil (C : Consts) (E : Env) (self : py_glfs_fd_t) (a : LockArgs)
    (hc : validCmd C a.cmd) (ht : validType C a.type)
    (hgu : ¬ (a.cmd = C.F_GETLK ∧ a.type = C.F_UNLCK)) :
    gilSafe (py_glfs_fd_posix_lock C E self (some a)).trace = false := by
  rw [((posix_lock_checks C E self a).2.2.2 hc ht hgu).1]
  simp [gilSafe, gilDiscipline]

/-- C8 at a failing input: posix_lock with the blocking command set-wait (7)
and a write lock (1) on an open handle issues the native lock call as its
only event, with no release of the interpreter lock before it, so the lock
discipline does not hold for its trace. -/
theorem posix_lock_native_call_under_gil :
    (py_glfs_fd_methods linux envOk openHandle
        (MethodCall.posix_lock (some ⟨7, 1, none, none, none, none⟩))).trace =
      [Event.native (NativeCall.posix_lock (some 7) 7 ⟨1, 0, 0, 1, 0⟩)] ∧
    gilSafe (py_glfs_fd_methods linux envOk openHandle
        (MethodCall.posix_lock (some ⟨7, 1, none, none, none, none⟩))).trace = false := by
  have h := (posix_lock_checks linux envOk openHandle ⟨7, 1, none, none, none, none⟩).2.2.2
    (by decide) (by decide) (by decide)
  simp only [py_glfs_fd_methods]
  rw [h.1]
  exact ⟨rfl, rfl⟩

end PyGlfs
